import Mathlib

/-!
Verification development for a socket-programming tic-tac-toe repository.

The session engine (`game_logic.py`, class `GameLogic`) is embedded as pure
Lean functions over an explicit engine state.  Python dicts are modelled as
insertion-ordered association lists; Python `datetime` values are modelled
as a record of calendar fields together with executable `isoformat` /
`fromisoformat` printing and parsing; the load balancer's backend pool
(`lb2.py`, class `BackendServerList`) is modelled as a record with an
explicit cursor.  Fallible operations return explicit error replies, as the
source does.
-/

/-! ## Association lists (the model of Python dicts) -/

/-- Lookup in an insertion-ordered association list (Python `d[k]` / `k in d`). -/
def alookup {α : Type} : List (String × α) → String → Option α
  | [], _ => none
  | (k0, v0) :: rest, k => if k0 = k then some v0 else alookup rest k

/-- Python dict assignment `d[k] = v`: updates in place if the key exists,
otherwise appends at the end (insertion order). -/
def ainsert {α : Type} : List (String × α) → String → α → List (String × α)
  | [], k, v => [(k, v)]
  | (k0, v0) :: rest, k, v =>
      if k0 = k then (k0, v) :: rest else (k0, v0) :: ainsert rest k v

/-- Python `del d[k]`. -/
def aerase {α : Type} : List (String × α) → String → List (String × α)
  | [], _ => []
  | (k0, v0) :: rest, k =>
      if k0 = k then aerase rest k else (k0, v0) :: aerase rest k

theorem alookup_ainsert_self {α : Type} (l : List (String × α)) (k : String) (v : α) :
    alookup (ainsert l k v) k = some v := by
  induction l with
  | nil => simp [ainsert, alookup]
  | cons kv rest ih =>
      obtain ⟨k0, v0⟩ := kv
      by_cases h : k0 = k <;> simp [ainsert, alookup, h, ih]

theorem alookup_ainsert_ne {α : Type} (l : List (String × α)) (k k' : String) (v : α)
    (h : k' ≠ k) : alookup (ainsert l k v) k' = alookup l k' := by
  have h' : k ≠ k' := Ne.symm h
  induction l with
  | nil => simp [ainsert, alookup, h']
  | cons kv rest ih =>
      obtain ⟨k0, v0⟩ := kv
      by_cases h0 : k0 = k
      · subst h0
        simp [ainsert, alookup, h']
      · by_cases h1 : k0 = k' <;> simp [ainsert, alookup, h0, h1, h, ih]

theorem alookup_aerase_self {α : Type} (l : List (String × α)) (k : String) :
    alookup (aerase l k) k = none := by
  induction l with
  | nil => simp [aerase, alookup]
  | cons kv rest ih =>
      obtain ⟨k0, v0⟩ := kv
      by_cases h : k0 = k <;> simp [aerase, alookup, h, ih]

theorem alookup_aerase_ne {α : Type} (l : List (String × α)) (k k' : String)
    (h : k' ≠ k) : alookup (aerase l k) k' = alookup l k' := by
  induction l with
  | nil => simp [aerase, alookup]
  | cons kv rest ih =>
      obtain ⟨k0, v0⟩ := kv
      by_cases h0 : k0 = k
      · subst h0
        simp [aerase, alookup, Ne.symm h, ih]
      · by_cases h1 : k0 = k' <;> simp [aerase, alookup, h0, h1, h, ih]

/-! ## Datetime: `isoformat` printing and `fromisoformat` parsing

`datetime.utcnow()` values are naive timestamps; `save_game_state` renders
them with `datetime.isoformat()` ("YYYY-MM-DDTHH:MM:SS" with ".ffffff"
appended when the microsecond field is nonzero) and `load_game_state`
re-parses them with `datetime.fromisoformat`, falling back to
`strptime("%Y-%m-%dT%H:%M:%S")` on the prefix before the first dot.
The builtins are modelled here restricted to the naive formats `isoformat`
emits, which is the class of strings the round trip exercises. -/

structure DateTime where
  year : Nat
  month : Nat
  day : Nat
  hour : Nat
  minute : Nat
  second : Nat
  microsecond : Nat
deriving DecidableEq, Repr

/-- Fixed-width zero-padded decimal rendering, most significant digit first
(the value is taken modulo `10 ^ k`, which is the identity on in-range
fields). -/
def natDigits : Nat → Nat → List Char
  | 0, _ => []
  | k + 1, n => Char.ofNat (48 + n / 10 ^ k % 10) :: natDigits k n

/-- Consume exactly `k` decimal digits, accumulating their value. -/
def parseFixed : Nat → List Char → Nat → Option (Nat × List Char)
  | 0, cs, acc => some (acc, cs)
  | _ + 1, [], _ => none
  | k + 1, c :: cs, acc =>
      if c.isDigit then parseFixed k cs (acc * 10 + (c.toNat - 48)) else none

/-- Consume one expected separator character. -/
def parseChar (t : Char) : List Char → Option (List Char)
  | c :: rest => if c = t then some rest else none
  | [] => none

theorem char_ofNat_digit_toNat (v : Nat) (h : v < 10) :
    (Char.ofNat (48 + v)).toNat = 48 + v := by
  interval_cases v <;> decide

theorem char_ofNat_digit_isDigit (v : Nat) (h : v < 10) :
    (Char.ofNat (48 + v)).isDigit = true := by
  interval_cases v <;> decide

theorem parseChar_cons (t : Char) (rest : List Char) :
    parseChar t (t :: rest) = some rest := by
  simp [parseChar]

theorem parseFixed_natDigits (k : Nat) :
    ∀ (n acc : Nat) (rest : List Char),
      parseFixed k (natDigits k n ++ rest) acc = some (acc * 10 ^ k + n % 10 ^ k, rest) := by
  induction k with
  | zero => intro n acc rest; simp [natDigits, parseFixed, Nat.mod_one]
  | succ k ih =>
      intro n acc rest
      have hv : n / 10 ^ k % 10 < 10 := Nat.mod_lt _ (by norm_num)
      simp only [natDigits, List.cons_append, parseFixed,
        char_ofNat_digit_isDigit _ hv, if_true, List.append_eq]
      rw [char_ofNat_digit_toNat _ hv, Nat.add_sub_cancel_left, ih]
      congr 2
      rw [pow_succ 10 k, Nat.mod_mul]
      ring

theorem parseFixed_natDigits_nil (k n acc : Nat) :
    parseFixed k (natDigits k n) acc = some (acc * 10 ^ k + n % 10 ^ k, []) := by
  have h := parseFixed_natDigits k n acc []
  rwa [List.append_nil] at h

/-- The textual form `datetime.isoformat()` produces for a naive datetime. -/
def isoChars (d : DateTime) : List Char :=
  natDigits 4 d.year ++ Char.ofNat 45 ::
    (natDigits 2 d.month ++ Char.ofNat 45 ::
      (natDigits 2 d.day ++ Char.ofNat 84 ::
        (natDigits 2 d.hour ++ Char.ofNat 58 ::
          (natDigits 2 d.minute ++ Char.ofNat 58 ::
            (natDigits 2 d.second ++
              (if d.microsecond = 0 then []
               else Char.ofNat 46 :: natDigits 6 d.microsecond))))))

/-- Optional ".ffffff" microsecond suffix. -/
def parseMicro : List Char → Option Nat
  | [] => some 0
  | c :: cs =>
      if c = Char.ofNat 46 then
        match parseFixed 6 cs 0 with
        | some (us, []) => some us
        | _ => none
      else none

/-- `datetime.fromisoformat`, restricted to the naive formats
`datetime.isoformat` emits. -/
def fromisoChars (cs : List Char) : Option DateTime :=
  (parseFixed 4 cs 0).bind fun p1 =>
  (parseChar (Char.ofNat 45) p1.2).bind fun cs1 =>
  (parseFixed 2 cs1 0).bind fun p2 =>
  (parseChar (Char.ofNat 45) p2.2).bind fun cs2 =>
  (parseFixed 2 cs2 0).bind fun p3 =>
  (parseChar (Char.ofNat 84) p3.2).bind fun cs3 =>
  (parseFixed 2 cs3 0).bind fun p4 =>
  (parseChar (Char.ofNat 58) p4.2).bind fun cs4 =>
  (parseFixed 2 cs4 0).bind fun p5 =>
  (parseChar (Char.ofNat 58) p5.2).bind fun cs5 =>
  (parseFixed 2 cs5 0).bind fun p6 =>
  (parseMicro p6.2).bind fun us =>
  some ⟨p1.1, p2.1, p3.1, p4.1, p5.1, p6.1, us⟩

/-- `strptime("%Y-%m-%dT%H:%M:%S")`: same grammar with no fraction allowed
and the whole string consumed. -/
def fromisoNoFrac (cs : List Char) : Option DateTime :=
  (parseFixed 4 cs 0).bind fun p1 =>
  (parseChar (Char.ofNat 45) p1.2).bind fun cs1 =>
  (parseFixed 2 cs1 0).bind fun p2 =>
  (parseChar (Char.ofNat 45) p2.2).bind fun cs2 =>
  (parseFixed 2 cs2 0).bind fun p3 =>
  (parseChar (Char.ofNat 84) p3.2).bind fun cs3 =>
  (parseFixed 2 cs3 0).bind fun p4 =>
  (parseChar (Char.ofNat 58) p4.2).bind fun cs4 =>
  (parseFixed 2 cs4 0).bind fun p5 =>
  (parseChar (Char.ofNat 58) p5.2).bind fun cs5 =>
  (parseFixed 2 cs5 0).bind fun p6 =>
  match p6.2 with
  | [] => some ⟨p1.1, p2.1, p3.1, p4.1, p5.1, p6.1, 0⟩
  | _ => none

def isoformat (d : DateTime) : String := String.mk (isoChars d)

def fromisoformat (s : String) : Option DateTime := fromisoChars s.data

/-- The datetime fields whose fixed-width rendering is lossless. -/
def ValidDT (d : DateTime) : Prop :=
  d.year < 10 ^ 4 ∧ d.month < 10 ^ 2 ∧ d.day < 10 ^ 2 ∧ d.hour < 10 ^ 2 ∧
    d.minute < 10 ^ 2 ∧ d.second < 10 ^ 2 ∧ d.microsecond < 10 ^ 6

instance (d : DateTime) : Decidable (ValidDT d) := by
  unfold ValidDT; infer_instance

theorem fromiso_iso (d : DateTime) (h : ValidDT d) :
    fromisoChars (isoChars d) = some d := by
  obtain ⟨y, mo, dd, hh, mi, ss, us⟩ := d
  simp only [ValidDT] at h
  obtain ⟨h1, h2, h3, h4, h5, h6, h7⟩ := h
  simp only [fromisoChars, isoChars, parseFixed_natDigits, Option.some_bind,
    parseChar_cons]
  have hy := Nat.mod_eq_of_lt h1
  have hmo := Nat.mod_eq_of_lt h2
  have hdd := Nat.mod_eq_of_lt h3
  have hhh := Nat.mod_eq_of_lt h4
  have hmi := Nat.mod_eq_of_lt h5
  have hss := Nat.mod_eq_of_lt h6
  have hus := Nat.mod_eq_of_lt h7
  by_cases h0 : us = 0
  · simp [h0, parseMicro, hy, hmo, hdd, hhh, hmi, hss]
    norm_num at h1 h2 h3 h4 h5 h6
    omega
  · simp only [if_neg h0, parseMicro, if_pos rfl, parseFixed_natDigits_nil]
    simp [hy, hmo, hdd, hhh, hmi, hss, hus]
    norm_num at h1 h2 h3 h4 h5 h6 h7
    omega

/-! ## Engine data model (`game_logic.py`, class `GameLogic`)

Board cells hold the Python value stored there: `some "."` for an empty
cell and `some sym` after a mark is written (a cell type of `Option String`
because the written value is the player's `symbol` entry, itself optional).
Dicts are association lists; `None` is `Option.none`. -/

structure Player where
  game_id : Option String
  symbol : Option String
  last_seen : DateTime
  connection_status : String
deriving DecidableEq, Repr

structure Game where
  board : List (List (Option String))
  players : List String
  spectators : List String
  current_turn_idx : Nat
  status : String
  winner : Option String
  symbols : List (String × String)
deriving DecidableEq, Repr

structure HistoryEntry where
  game_id : String
  players : List String
  winner : Option String
  date : String
  symbols : List (String × String)
  reason : String
deriving DecidableEq, Repr

structure GameLogic where
  games : List (String × Game)
  players : List (String × Player)
  game_history : List (String × List HistoryEntry)
deriving DecidableEq, Repr

/-- Python truthiness of an optional string (`None` and `""` are falsy). -/
def truthy : Option String → Bool
  | none => false
  | some s => s ≠ ""

/-- `board[r][c]` (in-range at every call site of the source). -/
def getCell (b : List (List (Option String))) (r c : Nat) : Option String :=
  (b.getD r []).getD c none

/-- `board[r][c] = v`. -/
def setCell (b : List (List (Option String))) (r c : Nat) (v : Option String) :
    List (List (Option String)) :=
  b.set r ((b.getD r []).set c v)

/-- The fresh `3×3` board of `"."` cells built by `create_game`. -/
def emptyBoard : List (List (Option String)) :=
  [[some ".", some ".", some "."],
   [some ".", some ".", some "."],
   [some ".", some ".", some "."]]

/-- One line of three equal marks. -/
def lineEq (b : List (List (Option String))) (r1 c1 r2 c2 r3 c3 : Nat)
    (s : String) : Bool :=
  (getCell b r1 c1 == some s) && (getCell b r2 c2 == some s) &&
    (getCell b r3 c3 == some s)

/-- All eight lines for one symbol (3 rows, 3 columns, 2 diagonals). -/
def symWins (b : List (List (Option String))) (s : String) : Bool :=
  lineEq b 0 0 0 1 0 2 s || lineEq b 0 0 1 0 2 0 s ||
  lineEq b 1 0 1 1 1 2 s || lineEq b 0 1 1 1 2 1 s ||
  lineEq b 2 0 2 1 2 2 s || lineEq b 0 2 1 2 2 2 s ||
  lineEq b 0 0 1 1 2 2 s || lineEq b 0 2 1 1 2 0 s

/-- `check_winner`: `"X"` is checked before `"O"`; first match wins. -/
def check_winner (b : List (List (Option String))) : Option String :=
  if symWins b "X" then some "X" else if symWins b "O" then some "O" else none

/-- `is_board_full`: every cell differs from `"."`. -/
def is_board_full (b : List (List (Option String))) : Bool :=
  b.all fun row => row.all fun cell => cell != some "."

/-- The view built by `get_game_state` on success. -/
structure GameStateView where
  board : List (List (Option String))
  game_status : String
  current_turn : Option String
  winner : Option String
  your_symbol : Option String
  players : List String
  symbols : List (String × String)
  player_statuses : List (String × String)
deriving DecidableEq, Repr

inductive GSResult where
  | err (message : String)
  | ok (gs : GameStateView)
deriving DecidableEq, Repr

/-- The reply dictionary: `status`, `message` and the payload keys the
claims inspect (`game_id` from `create_game`, `game_state` from the
`**self.get_game_state(...)` splat). -/
structure Reply where
  status : String
  message : String
  game_id : Option String := none
  game_state : Option GameStateView := none
deriving DecidableEq, Repr

def rErr (m : String) : Reply := { status := "ERROR", message := m }

def rOk (m : String) : Reply := { status := "OK", message := m }

/-- `{"status": "OK", "message": msg, **self.get_game_state(pid)}`: the
splatted dict overrides `status`/`message` when `get_game_state` failed. -/
def mergeReply (okMsg : String) : GSResult → Reply
  | .err m => { status := "ERROR", message := m }
  | .ok v => { status := "OK", message := okMsg, game_state := some v }

/-- Result of one engine call: the new state, the reply dict, and whether
`save_game_state` ran during the call. -/
structure OpResult where
  st : GameLogic
  reply : Reply
  saved : Bool
deriving DecidableEq, Repr

/-- `get_game_state(player_id)` (read-only). -/
def get_game_state (st : GameLogic) (pid : String) : GSResult :=
  match alookup st.players pid with
  | none => .err "Invalid player ID"
  | some P =>
    match P.game_id with
    | none => .err "Player not in a game"
    | some gid =>
      if gid = "" then .err "Player not in a game"
      else
        match alookup st.games gid with
        | none => .err "Player not in a game"
        | some game =>
          .ok { board := game.board
                game_status := game.status
                current_turn :=
                  if game.status = "playing" ∧ game.players.length = 2 then
                    game.players[game.current_turn_idx]?
                  else none
                winner := game.winner
                your_symbol := P.symbol
                players := game.players
                symbols := game.symbols
                player_statuses := game.players.map fun q =>
                  (q, ((alookup st.players q).map
                        Player.connection_status).getD "offline") }

/-- `register_player(player_id)`. -/
def register_player (st : GameLogic) (pid : String) (now : DateTime) : OpResult :=
  if pid = "" then ⟨st, rErr "Player ID required", false⟩
  else
    match alookup st.players pid with
    | none =>
      ⟨{ st with players :=
                   ainsert st.players pid
                     ({ game_id := none, symbol := none, last_seen := now,
                        connection_status := "online" }) },
       rOk "Player registered", true⟩
    | some P =>
      ⟨{ st with players :=
                   ainsert st.players pid
                     ({ P with last_seen := now,
                               connection_status := "online" }) },
       rOk "Player registered", true⟩

/-- `create_game(player_id)`.  The freshly generated id
(`uuid.uuid4().hex[:4]`) is passed in as the oracle `fresh`. -/
def create_game (st : GameLogic) (pid fresh : String) : OpResult :=
  match alookup st.players pid with
  | none => ⟨st, rErr "Player not registered or already in a game", false⟩
  | some P =>
    if truthy P.game_id then
      ⟨st, rErr "Player not registered or already in a game", false⟩
    else
      let game : Game :=
        { board := emptyBoard, players := [pid], spectators := [],
          current_turn_idx := 0, status := "waiting", winner := none,
          symbols := [(pid, "X")] }
      ⟨{ st with games := ainsert st.games fresh game,
                 players := ainsert st.players pid
                   ({ P with game_id := some fresh, symbol := some "X" }) },
       { status := "OK", message := "Game created", game_id := some fresh },
       true⟩

/-- `join_game(player_id, game_id)`. -/
def join_game (st : GameLogic) (pid gid : String) : OpResult :=
  match alookup st.players pid with
  | none => ⟨st, rErr "Player not registered or already in a game", false⟩
  | some P =>
    if truthy P.game_id then
      ⟨st, rErr "Player not registered or already in a game", false⟩
    else if gid = "" then ⟨st, rErr "Game not available for joining", false⟩
    else
      match alookup st.games gid with
      | none => ⟨st, rErr "Game not available for joining", false⟩
      | some game =>
        if game.status ≠ "waiting" then
          ⟨st, rErr "Game not available for joining", false⟩
        else if game.players.length ≥ 2 then
          ⟨st, rErr "Game is already full", false⟩
        else
          let game' := { game with players := game.players ++ [pid],
                                   status := "playing",
                                   symbols := ainsert game.symbols pid "O" }
          let st' : GameLogic :=
            { st with games := ainsert st.games gid game',
                      players := ainsert st.players pid
                        ({ P with game_id := some gid, symbol := some "O" }) }
          ⟨st', mergeReply "Joined game" (get_game_state st' pid), true⟩

/-- `spectate_game(player_id, game_id)` as written in `game_logic.py`:
note there is no check of the game's status. -/
def spectate_game (st : GameLogic) (pid gid : String) : OpResult :=
  match alookup st.players pid with
  | none => ⟨st, rErr "Player not registered or already in a game", false⟩
  | some P =>
    if truthy P.game_id then
      ⟨st, rErr "Player not registered or already in a game", false⟩
    else if gid = "" then ⟨st, rErr "Game does not exist", false⟩
    else
      match alookup st.games gid with
      | none => ⟨st, rErr "Game does not exist", false⟩
      | some game =>
        let game' := { game with spectators := game.spectators ++ [pid] }
        let st' : GameLogic :=
          { st with games := ainsert st.games gid game',
                    players := ainsert st.players pid
                      ({ P with game_id := some gid, symbol := none }) }
        ⟨st', mergeReply "Now spectating game" (get_game_state st' pid), true⟩

/-- A player record after `_end_game_and_record_history` clears it. -/
def clearPS (P : Player) : Player := { P with game_id := none, symbol := none }

/-- One iteration of the history-recording loop. -/
def recordOne (hist : List (String × List HistoryEntry))
    (players : List (String × Player)) (e : HistoryEntry) (q : String) :
    List (String × List HistoryEntry) × List (String × Player) :=
  (ainsert hist q (((alookup hist q).getD []) ++ [e]),
   match alookup players q with
   | some P => ainsert players q (clearPS P)
   | none => players)

/-- `for p_id in game["players"] + game["spectators"]: ...` -/
def recordAll (hist : List (String × List HistoryEntry))
    (players : List (String × Player)) (e : HistoryEntry) :
    List String → List (String × List HistoryEntry) × List (String × Player)
  | [] => (hist, players)
  | q :: rest =>
      recordAll (recordOne hist players e q).1 (recordOne hist players e q).2 e rest

/-- `_end_game_and_record_history(game_id, winner_id, reason)`; the
`datetime.utcnow().isoformat()` stamp is the oracle `date`. -/
def end_game_and_record_history (st : GameLogic) (gid : String)
    (winner_id : Option String) (reason date : String) : GameLogic :=
  match alookup st.games gid with
  | none => st
  | some game =>
    if game.status = "finished" then st
    else
      let game' := { game with status := "finished", winner := winner_id }
      let entry : HistoryEntry :=
        { game_id := gid, players := game.players, winner := winner_id,
          date := date, symbols := game.symbols, reason := reason }
      let hp := recordAll st.game_history st.players entry
        (game.players ++ game.spectators)
      { games := ainsert st.games gid game', players := hp.2,
        game_history := hp.1 }

/-- `next((pid for pid, sym in game["symbols"].items() if sym == winner), None)`. -/
def find_player_with_symbol (symbols : List (String × String)) (w : String) :
    Option String :=
  (symbols.find? fun kv => kv.2 = w).map Prod.fst

/-- `make_move(player_id, row, col)`; coordinates are Python ints, so they
are modelled as `Int` (negative input must be rejected). -/
def make_move (st : GameLogic) (pid : String) (row col : Int) (date : String) :
    OpResult :=
  match alookup st.players pid with
  | none => ⟨st, rErr "Invalid player ID", false⟩
  | some P =>
    match P.game_id with
    | none => ⟨st, rErr "Player not in a game", false⟩
    | some gid =>
      if gid = "" then ⟨st, rErr "Player not in a game", false⟩
      else
        match alookup st.games gid with
        | none => ⟨st, rErr "Player not in a game", false⟩
        | some game =>
          if game.status ≠ "playing" then
            ⟨st, rErr "Game not in progress", false⟩
          else if game.players[game.current_turn_idx]? ≠ some pid then
            ⟨st, rErr "Not your turn", false⟩
          else if ¬(0 ≤ row ∧ row < 3 ∧ 0 ≤ col ∧ col < 3 ∧
                getCell game.board row.toNat col.toNat = some ".") then
            ⟨st, rErr "Invalid move", false⟩
          else
            let board' := setCell game.board row.toNat col.toNat P.symbol
            let game1 := { game with board := board' }
            let st1 : GameLogic := { st with games := ainsert st.games gid game1 }
            let st2 :=
              match check_winner board' with
              | some w =>
                  end_game_and_record_history st1 gid
                    (find_player_with_symbol game.symbols w) "win" date
              | none =>
                  if is_board_full board' then
                    end_game_and_record_history st1 gid (some "draw") "draw" date
                  else
                    { st1 with games :=
                                 ainsert st1.games gid
                                   ({ game1 with current_turn_idx :=
                                        1 - game1.current_turn_idx }) }
            ⟨st2, mergeReply "Move made" (get_game_state st2 pid), true⟩

/-- The unconditional trailing reset of the caller's `game_id`/`symbol` at
the end of `leave_game`. -/
def clear_leaver (st1 : GameLogic) (pid : String) : GameLogic :=
  match alookup st1.players pid with
  | some Q =>
      { st1 with players :=
                   ainsert st1.players pid
                     ({ Q with game_id := none, symbol := none }) }
  | none => st1

/-- `leave_game(player_id)`. -/
def leave_game (st : GameLogic) (pid : String) (date : String) : OpResult :=
  match alookup st.players pid with
  | none => ⟨st, rErr "Invalid player ID.", false⟩
  | some P =>
    let st1 :=
      match P.game_id with
      | none => st
      | some gid =>
        if gid = "" then st
        else
          match alookup st.games gid with
          | none => st
          | some game =>
            if pid ∈ game.players ∧ game.status ≠ "finished" then
              if game.players.length > 1 then
                match game.players.find? fun p => p ≠ pid with
                | some other =>
                    if other ≠ "" then
                      end_game_and_record_history st gid (some other)
                        "forfeit" date
                    else st
                | none => st
              else { st with games := aerase st.games gid }
            else if pid ∈ game.spectators then
              { st with games :=
                          ainsert st.games gid
                            ({ game with spectators := game.spectators.erase pid }),
                        players :=
                          ainsert st.players pid ({ P with game_id := none }) }
            else st
    ⟨clear_leaver st1 pid, rOk "You have left the game.", true⟩

/-- `update_player_last_seen(player_id)` (saves only on an
offline-to-online flip). -/
def update_player_last_seen (st : GameLogic) (pid : String) (now : DateTime) :
    OpResult :=
  match alookup st.players pid with
  | none => ⟨st, rOk "", false⟩
  | some P =>
    if P.connection_status = "offline" then
      ⟨{ st with players :=
                   ainsert st.players pid
                     ({ P with last_seen := now,
                               connection_status := "online" }) },
       rOk "", true⟩
    else
      ⟨{ st with players := ainsert st.players pid ({ P with last_seen := now }) },
       rOk "", false⟩

/-! ## Persistence (`save_game_state` / `load_game_state`)

`save_game_state` writes Games and History verbatim and renders every
player's `last_seen` with `isoformat`; `load_game_state` re-parses each
timestamp with `fromisoformat`, falling back to
`strptime("%Y-%m-%dT%H:%M:%S")` on the prefix before the first dot, and
falls back to a completely fresh state when a timestamp raises. -/

structure SPlayer where
  game_id : Option String
  symbol : Option String
  last_seen : String
  connection_status : String
deriving DecidableEq, Repr

structure SState where
  games : List (String × Game)
  players : List (String × SPlayer)
  game_history : List (String × List HistoryEntry)
deriving DecidableEq, Repr

def save_game_state (st : GameLogic) : SState :=
  { games := st.games
    players := st.players.map fun kv =>
      (kv.1, { game_id := kv.2.game_id, symbol := kv.2.symbol,
               last_seen := isoformat kv.2.last_seen,
               connection_status := kv.2.connection_status })
    game_history := st.game_history }

/-- `datetime.fromisoformat(s)` with the `strptime` fallback of
`load_game_state`. -/
def parse_last_seen (s : String) : Option DateTime :=
  match fromisoformat s with
  | some d => some d
  | none => fromisoNoFrac (s.data.takeWhile fun c => c ≠ Char.ofNat 46)

def loadPlayers : List (String × SPlayer) → Option (List (String × Player))
  | [] => some []
  | (k, sp) :: rest =>
    match parse_last_seen sp.last_seen with
    | none => none
    | some d =>
      match loadPlayers rest with
      | none => none
      | some ps =>
        some ((k, { game_id := sp.game_id, symbol := sp.symbol,
                    last_seen := d,
                    connection_status := sp.connection_status }) :: ps)

def load_game_state (s : SState) : GameLogic :=
  match loadPlayers s.players with
  | some ps =>
    { games := s.games, players := ps, game_history := s.game_history }
  | none => { games := [], players := [], game_history := [] }

/-- Every stored timestamp has in-range fields. -/
def ValidState (st : GameLogic) : Prop :=
  ∀ kv ∈ st.players, ValidDT kv.2.last_seen

/-! ## Backend pool (`lb2.py`, class `BackendServerList`) -/

structure BackendServerList where
  all_servers : List (String × Nat)
  healthy_servers : List (String × Nat)
  current : Nat
deriving DecidableEq, Repr

/-- `get_server`: returns `None` when no backend is healthy, otherwise
advances the cursor modulo the live-set size and returns the addressed
member. -/
def get_server (b : BackendServerList) : BackendServerList × Option (String × Nat) :=
  match b.healthy_servers with
  | [] => (b, none)
  | s0 :: rest =>
    let cur := (b.current + 1) % (s0 :: rest).length
    ({ b with current := cur }, some ((s0 :: rest).getD cur s0))

/-- `update_health_status`: the probe results are swapped in wholesale. -/
def update_health_status (b : BackendServerList) (live : List (String × Nat)) :
    BackendServerList :=
  { b with healthy_servers := live }

/-! ## The engine RPC surface as one step relation -/

inductive Op where
  | register (pid : String) (now : DateTime)
  | create (pid fresh : String)
  | join (pid gid : String)
  | spectate (pid gid : String)
  | move (pid : String) (row col : Int) (date : String)
  | leave (pid : String) (date : String)
  | touch (pid : String) (now : DateTime)
  | getState (pid : String)
  | listGames
  | history (pid : String)
deriving DecidableEq, Repr

/-- Dispatch one engine call (`touch` is `update_player_last_seen`; the
three read-only calls reply without mutating). -/
def applyOp (st : GameLogic) : Op → OpResult
  | .register pid now => register_player st pid now
  | .create pid fresh => create_game st pid fresh
  | .join pid gid => join_game st pid gid
  | .spectate pid gid => spectate_game st pid gid
  | .move pid row col date => make_move st pid row col date
  | .leave pid date => leave_game st pid date
  | .touch pid now => update_player_last_seen st pid now
  | .getState pid => ⟨st, mergeReply "" (get_game_state st pid), false⟩
  | .listGames => ⟨st, rOk "", false⟩
  | .history pid =>
    ⟨st, match alookup st.players pid with
         | none => rErr "Player not registered."
         | some _ => rOk "", false⟩

/-! ## Helper lemmas -/

theorem rErr_status_ne_ok (m : String) : (rErr m).status ≠ "OK" := by
  simp [rErr]

theorem getD_mem {α : Type} (l : List α) (i : Nat) (d : α) (h : i < l.length) :
    l.getD i d ∈ l := by
  induction l generalizing i with
  | nil => simp at h
  | cons x xs ih =>
      cases i with
      | zero => simp [List.getD]
      | succ j =>
          simp only [List.getD, List.get?] at *
          right
          exact ih j (by simpa using h)

/-! ## Claim theorems -/

/-- A sample timestamp used by concrete witnesses. -/
def dEx : DateTime := ⟨2024, 5, 17, 10, 30, 2, 123456⟩

/-- C10 witness state: a live game whose id collides with the id
`create_game` is about to generate for player `"p"`. -/
def gameOld : Game :=
  { board := emptyBoard, players := ["x", "y"], spectators := [],
    current_turn_idx := 1, status := "playing", winner := none,
    symbols := [("x", "X"), ("y", "O")] }

def stC10 : GameLogic :=
  { games := [("abcd", gameOld)],
    players :=
      [("x", ⟨some "abcd", some "X", dEx, "online"⟩),
       ("y", ⟨some "abcd", some "O", dEx, "online"⟩),
       ("p", ⟨none, none, dEx, "online"⟩)],
    game_history := [] }

/-- C10: `create_game` installs the generated 4-hex id without checking it
against existing games: when the generated id collides with an existing
game's id, the existing record is replaced wholesale by the fresh
`waiting` game, so id uniqueness is not enforced by the operation. -/
theorem create_game_overwrites_on_collision :
    (create_game stC10 "p" "abcd").reply.status = "OK" ∧
    alookup stC10.games "abcd" = some gameOld ∧
    alookup (create_game stC10 "p" "abcd").st.games "abcd" ≠ some gameOld ∧
    (alookup (create_game stC10 "p" "abcd").st.games "abcd").map Game.players
      = some ["p"] := by
  decide

/-- C7: backend selection is round-robin strictly over the live set: with
an empty live set `get_server` returns `none` and leaves the state
untouched; otherwise it returns a member of the live set and advances the
cursor modulo the live-set size. -/
theorem get_server_round_robin (b : BackendServerList) :
    (b.healthy_servers = [] → get_server b = (b, none)) ∧
    (b.healthy_servers ≠ [] →
      ∃ s, (get_server b).2 = some s ∧ s ∈ b.healthy_servers ∧
        (get_server b).1.current =
          (b.current + 1) % b.healthy_servers.length ∧
        (get_server b).1.healthy_servers = b.healthy_servers) := by
  constructor
  · intro h
    simp [get_server, h]
  · intro h
    match hh : b.healthy_servers with
    | [] => exact absurd hh h
    | s0 :: rest =>
        refine ⟨(s0 :: rest).getD ((b.current + 1) % (s0 :: rest).length) s0,
          ?_, ?_, ?_, ?_⟩
        · simp [get_server, hh]
        · exact getD_mem _ _ _ (Nat.mod_lt _ (by simp))
        · simp [get_server, hh]
        · simp [get_server, hh]

/-- C7 witness: a concrete two-backend pool and the empty pool. -/
theorem get_server_round_robin_witness :
    (∃ s, (get_server ⟨[], [("h", 55556), ("h", 55557)], 0⟩).2 = some s ∧
      s ∈ [("h", 55556), ("h", 55557)] ∧
      (get_server ⟨[], [("h", 55556), ("h", 55557)], 0⟩).1.current = 1 % 2 ∧
      (get_server ⟨[], [("h", 55556), ("h", 55557)], 0⟩).1.healthy_servers =
        [("h", 55556), ("h", 55557)]) ∧
    get_server ⟨[], [], 5⟩ = (⟨[], [], 5⟩, none) := by
  constructor
  · exact (get_server_round_robin ⟨[], [("h", 55556), ("h", 55557)], 0⟩).2
      (by decide)
  · exact (get_server_round_robin ⟨[], [], 5⟩).1 rfl

theorem parse_last_seen_iso (d : DateTime) (h : ValidDT d) :
    parse_last_seen (isoformat d) = some d := by
  simp [parse_last_seen, fromisoformat, isoformat, fromiso_iso d h]

theorem loadPlayers_save (ps : List (String × Player))
    (h : ∀ kv ∈ ps, ValidDT kv.2.last_seen) :
    loadPlayers (ps.map fun kv =>
      (kv.1, { game_id := kv.2.game_id, symbol := kv.2.symbol,
               last_seen := isoformat kv.2.last_seen,
               connection_status := kv.2.connection_status })) = some ps := by
  induction ps with
  | nil => simp [loadPlayers]
  | cons kv rest ih =>
      obtain ⟨k, P⟩ := kv
      have hP : ValidDT P.last_seen := h (k, P) (by simp)
      have hrest : ∀ kv ∈ rest, ValidDT kv.2.last_seen :=
        fun kv hkv => h kv (List.mem_cons_of_mem _ hkv)
      simp [loadPlayers, parse_last_seen_iso _ hP, ih hrest]

/-- C6: serialising the persisted state (Players, Games, History) and
deserialising it again reproduces the original engine state; in
particular every `last_seen` timestamp survives the textual
`isoformat`/`fromisoformat` round trip. -/
theorem save_load_round_trip (st : GameLogic) (h : ValidState st) :
    load_game_state (save_game_state st) = st := by
  unfold ValidState at h
  unfold load_game_state save_game_state
  simp only [loadPlayers_save st.players h]

instance (st : GameLogic) : Decidable (ValidState st) := by
  unfold ValidState; infer_instance

/-- C6 witness state: two players with distinct timestamp shapes (with and
without a microsecond fraction), a game and a history entry. -/
def stC6 : GameLogic :=
  { games := [("abcd", gameOld)],
    players :=
      [("x", ⟨some "abcd", some "X", dEx, "online"⟩),
       ("y", ⟨none, none, ⟨2023, 12, 31, 23, 59, 59, 0⟩, "offline"⟩)],
    game_history :=
      [("x", [{ game_id := "zz01", players := ["x", "y"], winner := some "x",
                date := "2023-12-31T23:59:59", symbols := [("x", "X")],
                reason := "win" }])] }

theorem save_load_round_trip_witness :
    ValidState stC6 ∧ load_game_state (save_game_state stC6) = stC6 :=
  ⟨by decide, save_load_round_trip stC6 (by decide)⟩


/-- C5 counterexample state: a registered, idle player `"s"` and a game
`"w1"` still in status `waiting`. -/
def stC5 : GameLogic :=
  { games := [("w1", { board := emptyBoard, players := ["c"], spectators := [],
                       current_turn_idx := 0, status := "waiting",
                       winner := none, symbols := [("c", "X")] })],
    players :=
      [("c", ⟨some "w1", some "X", dEx, "online"⟩),
       ("s", ⟨none, none, dEx, "online"⟩)],
    game_history := [] }

/-- C5 counterexample: `spectate_game` in `game_logic.py` never checks the
game's status, so spectating a game that is still `waiting` succeeds,
contradicting "succeeds only when the game's status is `playing` or
`finished`". -/
theorem spectate_game_waiting_succeeds :
    (alookup stC5.games "w1").map Game.status = some "waiting" ∧
    (spectate_game stC5 "s" "w1").reply.status = "OK" ∧
    (alookup (spectate_game stC5 "s" "w1").st.games "w1").map Game.spectators
      = some ["s"] := by
  decide

/-- C5 amended: for a registered caller who is not in a game,
`spectate_game` fails when the target game id is absent (or empty), and
succeeds for every existing game regardless of its status — there is no
status check — appending the caller to the spectator list, clearing the
caller's mark, and returning the full game state in the reply. -/
theorem spectate_game_spec (st : GameLogic) (pid gid : String) (P : Player)
    (hP : alookup st.players pid = some P) (hng : truthy P.game_id = false) :
    ((gid = "" ∨ alookup st.games gid = none) →
      (spectate_game st pid gid).reply.status = "ERROR" ∧
      (spectate_game st pid gid).st = st) ∧
    (∀ game, gid ≠ "" → alookup st.games gid = some game →
      (spectate_game st pid gid).reply.status = "OK" ∧
      (∃ game', alookup (spectate_game st pid gid).st.games gid = some game' ∧
        game'.spectators = game.spectators ++ [pid] ∧
        game'.status = game.status) ∧
      (alookup (spectate_game st pid gid).st.players pid).map Player.symbol
        = some none ∧
      (spectate_game st pid gid).reply.game_state.isSome = true ∧
      (∀ v, get_game_state (spectate_game st pid gid).st pid = GSResult.ok v →
        (spectate_game st pid gid).reply.game_state = some v)) := by
  constructor
  · intro h
    rcases h with hgid | hnone
    · simp [spectate_game, hP, hng, hgid, rErr]
    · by_cases hgid : gid = ""
      · simp [spectate_game, hP, hng, hgid, rErr]
      · simp [spectate_game, hP, hng, hgid, hnone, rErr]
  · intro game hgid hgame
    have hsp : spectate_game st pid gid =
        ⟨{ st with
             games := ainsert st.games gid
               ({ game with spectators := game.spectators ++ [pid] }),
             players := ainsert st.players pid
               ({ P with game_id := some gid, symbol := none }) },
         mergeReply "Now spectating game"
           (get_game_state
             { st with
                 games := ainsert st.games gid
                   ({ game with spectators := game.spectators ++ [pid] }),
                 players := ainsert st.players pid
                   ({ P with game_id := some gid, symbol := none }) } pid),
         true⟩ := by
      simp [spectate_game, hP, hng, hgid, hgame]
    rw [hsp]
    refine ⟨?_, ⟨_, alookup_ainsert_self _ _ _, rfl, rfl⟩, ?_, ?_, ?_⟩
    · simp [mergeReply, get_game_state, alookup_ainsert_self, hgid]
    · simp [alookup_ainsert_self]
    · simp [mergeReply, get_game_state, alookup_ainsert_self, hgid]
    · intro v hv
      rw [hv]
      simp [mergeReply]

/-- C5 amended witness: both branches of the amended statement evaluated on
the counterexample state (absent id `"zz"`, existing waiting game `"w1"`). -/
theorem spectate_game_spec_witness :
    ((spectate_game stC5 "s" "zz").reply.status = "ERROR" ∧
      (spectate_game stC5 "s" "zz").st = stC5) ∧
    ((spectate_game stC5 "s" "w1").reply.status = "OK" ∧
      (∃ game', alookup (spectate_game stC5 "s" "w1").st.games "w1" = some game' ∧
        game'.spectators = [] ++ ["s"] ∧ game'.status = "waiting") ∧
      (alookup (spectate_game stC5 "s" "w1").st.players "s").map Player.symbol
        = some none ∧
      (spectate_game stC5 "s" "w1").reply.game_state.isSome = true ∧
      (∀ v, get_game_state (spectate_game stC5 "s" "w1").st "s" = GSResult.ok v →
        (spectate_game stC5 "s" "w1").reply.game_state = some v)) := by
  constructor
  · exact (spectate_game_spec stC5 "s" "zz" ⟨none, none, dEx, "online"⟩
      (by decide) (by decide)).1 (Or.inr (by decide))
  · exact (spectate_game_spec stC5 "s" "w1" ⟨none, none, dEx, "online"⟩
      (by decide) (by decide)).2
      { board := emptyBoard, players := ["c"], spectators := [],
        current_turn_idx := 0, status := "waiting", winner := none,
        symbols := [("c", "X")] }
      (by decide) (by decide)

/-- C1: with the caller's current game in view, an occupied target cell, an
out-of-turn caller, or an out-of-range coordinate makes `make_move` return
an error reply, leave the engine state untouched and skip persistence. -/
theorem make_move_rejects_illegal (st : GameLogic) (pid : String)
    (row col : Int) (date gid : String) (P : Player) (game : Game)
    (hP : alookup st.players pid = some P) (hgid : P.game_id = some gid)
    (hne : gid ≠ "") (hg : alookup st.games gid = some game)
    (hbad : getCell game.board row.toNat col.toNat ≠ some "." ∨
            game.players[game.current_turn_idx]? ≠ some pid ∨
            ¬(0 ≤ row ∧ row < 3 ∧ 0 ≤ col ∧ col < 3)) :
    (make_move st pid row col date).reply.status = "ERROR" ∧
    (make_move st pid row col date).st = st ∧
    (make_move st pid row col date).saved = false := by
  by_cases hs : game.status = "playing"
  · by_cases ht : game.players[game.current_turn_idx]? = some pid
    · rcases hbad with hb | hb | hb
      · simp [make_move, hP, hgid, hne, hg, hs, ht, hb, rErr]
      · exact absurd ht hb
      · by_cases hr1 : 0 ≤ row
        · by_cases hr2 : row < 3
          · by_cases hc1 : 0 ≤ col
            · by_cases hc2 : col < 3
              · exact absurd ⟨hr1, hr2, hc1, hc2⟩ hb
              · simp [make_move, hP, hgid, hne, hg, hs, ht, hc2, rErr]
            · simp [make_move, hP, hgid, hne, hg, hs, ht, hc1, rErr]
          · simp [make_move, hP, hgid, hne, hg, hs, ht, hr2, rErr]
        · simp [make_move, hP, hgid, hne, hg, hs, ht, hr1, rErr]
    · simp [make_move, hP, hgid, hne, hg, hs, ht, rErr]
  · simp [make_move, hP, hgid, hne, hg, hs, rErr]

/-- C1 witness: on the C10 state, `"x"` moving out of turn and `"y"`
moving to a negative coordinate are both rejected without touching the
state. -/
theorem make_move_rejects_illegal_witness :
    ((make_move stC10 "x" 0 0 "t").reply.status = "ERROR" ∧
      (make_move stC10 "x" 0 0 "t").st = stC10 ∧
      (make_move stC10 "x" 0 0 "t").saved = false) ∧
    ((make_move stC10 "y" (-1) 2 "t").reply.status = "ERROR" ∧
      (make_move stC10 "y" (-1) 2 "t").st = stC10 ∧
      (make_move stC10 "y" (-1) 2 "t").saved = false) := by
  constructor
  · exact make_move_rejects_illegal stC10 "x" 0 0 "t" "abcd"
      ⟨some "abcd", some "X", dEx, "online"⟩ gameOld (by decide) rfl
      (by decide) (by decide) (Or.inr (Or.inl (by decide)))
  · exact make_move_rejects_illegal stC10 "y" (-1) 2 "t" "abcd"
      ⟨some "abcd", some "O", dEx, "online"⟩ gameOld (by decide) rfl
      (by decide) (by decide) (Or.inr (Or.inr (by decide)))

/-- C2: a successful `create_game(A)` followed by a successful
`join_game(B, fresh)` on the returned id yields a game with exactly the two
distinct players `[A, B]`, status `playing`, `A` holding `"X"` and `B`
holding `"O"`. -/
theorem create_join_two_players (st : GameLogic) (A B fresh : String)
    (h1 : (create_game st A fresh).reply.status = "OK")
    (h2 : (join_game (create_game st A fresh).st B fresh).reply.status = "OK") :
    (create_game st A fresh).reply.game_id = some fresh ∧
    A ≠ B ∧
    ∃ game,
      alookup (join_game (create_game st A fresh).st B fresh).st.games fresh
        = some game ∧
      game.players = [A, B] ∧ game.status = "playing" ∧
      alookup game.symbols A = some "X" ∧ alookup game.symbols B = some "O" := by
  rcases hA : alookup st.players A with _ | P
  · simp [create_game, hA, rErr] at h1
  · by_cases hT : truthy P.game_id
    · simp [create_game, hA, hT, rErr] at h1
    · have hplayers1 : (create_game st A fresh).st.players =
          ainsert st.players A
            ({ P with game_id := some fresh, symbol := some "X" }) := by
        simp [create_game, hA, hT]
      have hgames1 : (create_game st A fresh).st.games =
          ainsert st.games fresh
            { board := emptyBoard, players := [A], spectators := [],
              current_turn_idx := 0, status := "waiting", winner := none,
              symbols := [(A, "X")] } := by
        simp [create_game, hA, hT]
      have hrep1 : (create_game st A fresh).reply.game_id = some fresh := by
        simp [create_game, hA, hT]
      rcases hB : alookup (create_game st A fresh).st.players B with _ | PB
      · simp [join_game, hB, rErr] at h2
      · by_cases hTB : truthy PB.game_id
        · simp [join_game, hB, hTB, rErr] at h2
        · by_cases hfe : fresh = ""
          · subst hfe
            simp [join_game, hB, hTB, rErr] at h2
          · have hAB : A ≠ B := by
              intro he
              rw [← he] at hB
              rw [hplayers1, alookup_ainsert_self] at hB
              cases hB
              simp [truthy, hfe] at hTB
            have hg1 : alookup (create_game st A fresh).st.games fresh =
                some { board := emptyBoard, players := [A], spectators := [],
                       current_turn_idx := 0, status := "waiting",
                       winner := none, symbols := [(A, "X")] } := by
              rw [hgames1]; exact alookup_ainsert_self _ _ _
            refine ⟨hrep1, hAB,
              ⟨{ board := emptyBoard, players := [A, B], spectators := [],
                 current_turn_idx := 0, status := "playing", winner := none,
                 symbols := [(A, "X"), (B, "O")] }, ?_, rfl, rfl, ?_, ?_⟩⟩
            · simp [join_game, hB, hTB, hfe, hg1, alookup_ainsert_self,
                ainsert, hAB]
            · simp [alookup]
            · simp [alookup, hAB]

/-- C2 witness: two registered idle players `"a"`, `"b"`, fresh id `"g1"`. -/
def stReg : GameLogic :=
  { games := [],
    players :=
      [("a", ⟨none, none, dEx, "online"⟩), ("b", ⟨none, none, dEx, "online"⟩)],
    game_history := [] }

theorem create_join_two_players_witness :
    (create_game stReg "a" "g1").reply.game_id = some "g1" ∧
    "a" ≠ "b" ∧
    ∃ game,
      alookup (join_game (create_game stReg "a" "g1").st "b" "g1").st.games "g1"
        = some game ∧
      game.players = ["a", "b"] ∧ game.status = "playing" ∧
      alookup game.symbols "a" = some "X" ∧
      alookup game.symbols "b" = some "O" :=
  create_join_two_players stReg "a" "b" "g1" (by decide) (by decide)

theorem clear_leaver_games (st1 : GameLogic) (pid : String) :
    (clear_leaver st1 pid).games = st1.games := by
  unfold clear_leaver
  cases alookup st1.players pid <;> rfl

theorem clear_leaver_hist (st1 : GameLogic) (pid : String) :
    (clear_leaver st1 pid).game_history = st1.game_history := by
  unfold clear_leaver
  cases alookup st1.players pid <;> rfl

theorem clearPS_idem (P : Player) : clearPS (clearPS P) = clearPS P := rfl

theorem recordAll_hist_notmem (e : HistoryEntry) (l : List String) :
    ∀ (hist : List (String × List HistoryEntry))
      (players : List (String × Player)) (q : String), q ∉ l →
      alookup (recordAll hist players e l).1 q = alookup hist q := by
  induction l with
  | nil => intro hist players q _; rfl
  | cons x rest ih =>
      intro hist players q hq
      have hqx : q ≠ x := fun h => hq (h ▸ List.mem_cons_self x rest)
      have hqr : q ∉ rest := fun h => hq (List.mem_cons_of_mem x h)
      simp only [recordAll, recordOne]
      rw [ih _ _ q hqr, alookup_ainsert_ne _ _ _ _ hqx]

theorem recordAll_hist_mem (e : HistoryEntry) (l : List String) :
    ∀ (hist : List (String × List HistoryEntry))
      (players : List (String × Player)) (q : String), q ∈ l →
      alookup (recordAll hist players e l).1 q =
        some (((alookup hist q).getD []) ++ List.replicate (l.count q) e) := by
  induction l with
  | nil => intro hist players q hq; simp at hq
  | cons x rest ih =>
      intro hist players q hq
      by_cases hqx : q = x
      · subst hqx
        by_cases hqr : q ∈ rest
        · simp only [recordAll, recordOne]
          rw [ih _ _ q hqr, alookup_ainsert_self]
          simp [List.count_cons, List.replicate_succ, Option.getD]
        · simp only [recordAll, recordOne]
          rw [recordAll_hist_notmem e rest _ _ q hqr, alookup_ainsert_self]
          have hc : rest.count q = 0 := List.count_eq_zero.mpr hqr
          simp [List.count_cons, hc]
      · have hqr : q ∈ rest := by
          rcases List.mem_cons.mp hq with h | h
          · exact absurd h hqx
          · exact h
        simp only [recordAll, recordOne]
        rw [ih _ _ q hqr, alookup_ainsert_ne _ _ _ _ hqx]
        have : (x :: rest).count q = rest.count q := by
          simp [List.count_cons, hqx]
        rw [this]

theorem recordAll_players_lookup (e : HistoryEntry) (l : List String) :
    ∀ (hist : List (String × List HistoryEntry))
      (players : List (String × Player)) (q : String),
      alookup (recordAll hist players e l).2 q =
        if q ∈ l then (alookup players q).map clearPS
        else alookup players q := by
  induction l with
  | nil => intro hist players q; simp [recordAll]
  | cons x rest ih =>
      intro hist players q
      by_cases hqx : q = x
      · subst hqx
        rcases hp : alookup players q with _ | P
        · simp [recordAll, recordOne, hp, ih]
        · simp [recordAll, recordOne, hp, ih, alookup_ainsert_self, clearPS_idem]
      · rcases hp : alookup players x with _ | P
        · simp [recordAll, recordOne, hp, ih, List.mem_cons, hqx]
        · simp [recordAll, recordOne, hp, ih, alookup_ainsert_ne _ _ _ _ hqx,
            List.mem_cons, hqx]

/-- C3: a `leave_game` by an active participant of a two-player `playing`
game finishes the game, declares the other participant winner, and appends
a `forfeit` HistoryEntry to the history of every participant and
spectator. -/
theorem leave_game_forfeits (st : GameLogic) (pid a b gid date : String)
    (P : Player) (game : Game)
    (hP : alookup st.players pid = some P)
    (hgid : P.game_id = some gid) (hne : gid ≠ "")
    (hg : alookup st.games gid = some game)
    (hstatus : game.status = "playing")
    (hplayers : game.players = [a, b])
    (hmem : pid = a ∨ pid = b)
    (hab : a ≠ b) (ha : a ≠ "") (hb : b ≠ "") :
    ∃ game',
      alookup (leave_game st pid date).st.games gid = some game' ∧
      game'.status = "finished" ∧
      game'.winner = some (if pid = a then b else a) ∧
      ∀ q ∈ game.players ++ game.spectators,
        alookup (leave_game st pid date).st.game_history q =
          some (((alookup st.game_history q).getD []) ++
            List.replicate ((game.players ++ game.spectators).count q)
              { game_id := gid, players := game.players,
                winner := some (if pid = a then b else a), date := date,
                symbols := game.symbols, reason := "forfeit" }) := by
  have hba : b ≠ a := Ne.symm hab
  rcases hmem with h | h
  · subst h
    have hredSt : (leave_game st pid date).st =
        clear_leaver
          (end_game_and_record_history st gid (some b) "forfeit" date) pid := by
      simp [leave_game, hP, hgid, hne, hg, hstatus, hplayers, hba, hb]
    have hend : end_game_and_record_history st gid (some b) "forfeit" date =
        { games := ainsert st.games gid
            ({ game with status := "finished", winner := some b }),
          players := (recordAll st.game_history st.players
            { game_id := gid, players := game.players, winner := some b,
              date := date, symbols := game.symbols, reason := "forfeit" }
            (game.players ++ game.spectators)).2,
          game_history := (recordAll st.game_history st.players
            { game_id := gid, players := game.players, winner := some b,
              date := date, symbols := game.symbols, reason := "forfeit" }
            (game.players ++ game.spectators)).1 } := by
      simp [end_game_and_record_history, hg, hstatus]
    refine ⟨{ game with status := "finished", winner := some b }, ?_, rfl,
      by simp, ?_⟩
    · rw [hredSt, clear_leaver_games, hend]
      exact alookup_ainsert_self _ _ _
    · intro q hq
      rw [hredSt, clear_leaver_hist, hend]
      simp only [if_pos rfl]
      exact recordAll_hist_mem _ _ _ _ q hq
  · subst h
    have hredSt : (leave_game st pid date).st =
        clear_leaver
          (end_game_and_record_history st gid (some a) "forfeit" date) pid := by
      simp [leave_game, hP, hgid, hne, hg, hstatus, hplayers, hab, ha]
    have hend : end_game_and_record_history st gid (some a) "forfeit" date =
        { games := ainsert st.games gid
            ({ game with status := "finished", winner := some a }),
          players := (recordAll st.game_history st.players
            { game_id := gid, players := game.players, winner := some a,
              date := date, symbols := game.symbols, reason := "forfeit" }
            (game.players ++ game.spectators)).2,
          game_history := (recordAll st.game_history st.players
            { game_id := gid, players := game.players, winner := some a,
              date := date, symbols := game.symbols, reason := "forfeit" }
            (game.players ++ game.spectators)).1 } := by
      simp [end_game_and_record_history, hg, hstatus]
    refine ⟨{ game with status := "finished", winner := some a }, ?_, rfl,
      by simp [hba], ?_⟩
    · rw [hredSt, clear_leaver_games, hend]
      exact alookup_ainsert_self _ _ _
    · intro q hq
      rw [hredSt, clear_leaver_hist, hend]
      simp only [if_neg hba]
      exact recordAll_hist_mem _ _ _ _ q hq

/-- C3 witness state: two players and one spectator in a `playing` game. -/
def gameC3 : Game :=
  { board := emptyBoard, players := ["a", "b"], spectators := ["s"],
    current_turn_idx := 0, status := "playing", winner := none,
    symbols := [("a", "X"), ("b", "O")] }

def stC3 : GameLogic :=
  { games := [("g1", gameC3)],
    players :=
      [("a", ⟨some "g1", some "X", dEx, "online"⟩),
       ("b", ⟨some "g1", some "O", dEx, "online"⟩),
       ("s", ⟨some "g1", none, dEx, "online"⟩)],
    game_history := [] }

theorem leave_game_forfeits_witness :
    ∃ game',
      alookup (leave_game stC3 "a" "t").st.games "g1" = some game' ∧
      game'.status = "finished" ∧
      game'.winner = some (if "a" = "a" then "b" else "a") ∧
      ∀ q ∈ gameC3.players ++ gameC3.spectators,
        alookup (leave_game stC3 "a" "t").st.game_history q =
          some (((alookup stC3.game_history q).getD []) ++
            List.replicate ((gameC3.players ++ gameC3.spectators).count q)
              { game_id := "g1", players := gameC3.players,
                winner := some (if "a" = "a" then "b" else "a"), date := "t",
                symbols := gameC3.symbols, reason := "forfeit" }) :=
  leave_game_forfeits stC3 "a" "a" "b" "g1" "t"
    ⟨some "g1", some "X", dEx, "online"⟩ gameC3 (by decide) rfl (by decide)
    (by decide) rfl rfl (Or.inl rfl) (by decide) (by decide) (by decide)

/-- C4: a legal move that completes the board without producing any line of
three equal marks finishes the game with winner `"draw"` and appends a
`draw` HistoryEntry to the history of every participant and spectator. -/
theorem make_move_draw (st : GameLogic) (pid : String) (row col : Int)
    (date gid : String) (P : Player) (game : Game)
    (hP : alookup st.players pid = some P)
    (hgid : P.game_id = some gid) (hne : gid ≠ "")
    (hg : alookup st.games gid = some game)
    (hstatus : game.status = "playing")
    (hturn : game.players[game.current_turn_idx]? = some pid)
    (hr : 0 ≤ row ∧ row < 3) (hc : 0 ≤ col ∧ col < 3)
    (hcell : getCell game.board row.toNat col.toNat = some ".")
    (hwin : check_winner (setCell game.board row.toNat col.toNat P.symbol)
      = none)
    (hfull : is_board_full (setCell game.board row.toNat col.toNat P.symbol)
      = true) :
    ∃ game',
      alookup (make_move st pid row col date).st.games gid = some game' ∧
      game'.status = "finished" ∧
      game'.winner = some "draw" ∧
      game'.board = setCell game.board row.toNat col.toNat P.symbol ∧
      ∀ q ∈ game.players ++ game.spectators,
        alookup (make_move st pid row col date).st.game_history q =
          some (((alookup st.game_history q).getD []) ++
            List.replicate ((game.players ++ game.spectators).count q)
              { game_id := gid, players := game.players,
                winner := some "draw", date := date,
                symbols := game.symbols, reason := "draw" }) := by
  have hredSt : (make_move st pid row col date).st =
      end_game_and_record_history
        { st with games :=
                    ainsert st.games gid
                      ({ game with
                          board :=
                            setCell game.board row.toNat col.toNat P.symbol }) }
        gid (some "draw") "draw" date := by
    simp [make_move, hP, hgid, hne, hg, hstatus, hturn, hr.1, hr.2, hc.1,
      hc.2, hcell, hwin, hfull]
  have hend : end_game_and_record_history
      { st with games :=
                  ainsert st.games gid
                    ({ game with
                        board :=
                          setCell game.board row.toNat col.toNat P.symbol }) }
      gid (some "draw") "draw" date =
      { games := ainsert (ainsert st.games gid
          ({ game with
              board := setCell game.board row.toNat col.toNat P.symbol }))
          gid
          ({ game with
              board := setCell game.board row.toNat col.toNat P.symbol,
              status := "finished", winner := some "draw" }),
        players := (recordAll st.game_history st.players
          { game_id := gid, players := game.players, winner := some "draw",
            date := date, symbols := game.symbols, reason := "draw" }
          (game.players ++ game.spectators)).2,
        game_history := (recordAll st.game_history st.players
          { game_id := gid, players := game.players, winner := some "draw",
            date := date, symbols := game.symbols, reason := "draw" }
          (game.players ++ game.spectators)).1 } := by
    simp [end_game_and_record_history, alookup_ainsert_self, hstatus]
  refine ⟨{ game with
              board := setCell game.board row.toNat col.toNat P.symbol,
              status := "finished", winner := some "draw" },
    ?_, rfl, rfl, rfl, ?_⟩
  · rw [hredSt, hend]
    exact alookup_ainsert_self _ _ _
  · intro q hq
    rw [hredSt, hend]
    exact recordAll_hist_mem _ _ _ _ q hq

/-- C4 witness state: a board one legal move away from a draw. -/
def gameC4 : Game :=
  { board := [[some "X", some "O", some "X"],
              [some "X", some "O", some "O"],
              [some "O", some "X", some "."]],
    players := ["a", "b"], spectators := ["s"], current_turn_idx := 0,
    status := "playing", winner := none,
    symbols := [("a", "X"), ("b", "O")] }

def stC4 : GameLogic :=
  { games := [("g1", gameC4)],
    players :=
      [("a", ⟨some "g1", some "X", dEx, "online"⟩),
       ("b", ⟨some "g1", some "O", dEx, "online"⟩),
       ("s", ⟨some "g1", none, dEx, "online"⟩)],
    game_history := [] }

theorem make_move_draw_witness :
    ∃ game',
      alookup (make_move stC4 "a" 2 2 "t").st.games "g1" = some game' ∧
      game'.status = "finished" ∧
      game'.winner = some "draw" ∧
      game'.board = setCell gameC4.board (2 : Int).toNat (2 : Int).toNat
        (some "X") ∧
      ∀ q ∈ gameC4.players ++ gameC4.spectators,
        alookup (make_move stC4 "a" 2 2 "t").st.game_history q =
          some (((alookup stC4.game_history q).getD []) ++
            List.replicate ((gameC4.players ++ gameC4.spectators).count q)
              { game_id := "g1", players := gameC4.players,
                winner := some "draw", date := "t",
                symbols := gameC4.symbols, reason := "draw" }) :=
  make_move_draw stC4 "a" 2 2 "t" "g1" ⟨some "g1", some "X", dEx, "online"⟩
    gameC4 (by decide) rfl (by decide) (by decide) rfl (by decide)
    ⟨by decide, by decide⟩ ⟨by decide, by decide⟩ (by decide) (by decide)
    (by decide)

theorem getElem?_mem_list {α : Type} (l : List α) (i : Nat) (a : α)
    (h : l[i]? = some a) : a ∈ l := by
  induction l generalizing i with
  | nil => simp at h
  | cons x xs ih =>
      cases i with
      | zero =>
          simp at h
          simp [h]
      | succ j =>
          simp at h
          exact List.mem_cons_of_mem _ (ih j h)

/-- Outcome of `_end_game_and_record_history` on a game that exists and is
not yet finished. -/
theorem end_game_unfold (st1 : GameLogic) (gid : String) (w : Option String)
    (r d : String) (game1 : Game)
    (h : alookup st1.games gid = some game1)
    (hs : game1.status ≠ "finished") :
    end_game_and_record_history st1 gid w r d =
      { games := ainsert st1.games gid
          ({ game1 with status := "finished", winner := w }),
        players := (recordAll st1.game_history st1.players
          { game_id := gid, players := game1.players, winner := w,
            date := d, symbols := game1.symbols, reason := r }
          (game1.players ++ game1.spectators)).2,
        game_history := (recordAll st1.game_history st1.players
          { game_id := gid, players := game1.players, winner := w,
            date := d, symbols := game1.symbols, reason := r }
          (game1.players ++ game1.spectators)).1 } := by
  simp [end_game_and_record_history, h, hs]

/-- C9 counterexample state: `"a"` is one move away from completing the top
row with `"X"`. -/
def gameC9 : Game :=
  { board := [[some "X", some "X", some "."],
              [some "O", some "O", some "."],
              [some ".", some ".", some "."]],
    players := ["a", "b"], spectators := [], current_turn_idx := 0,
    status := "playing", winner := none,
    symbols := [("a", "X"), ("b", "O")] }

def stC9 : GameLogic :=
  { games := [("g1", gameC9)],
    players :=
      [("a", ⟨some "g1", some "X", dEx, "online"⟩),
       ("b", ⟨some "g1", some "O", dEx, "online"⟩)],
    game_history := [] }

/-- C9 counterexample: the winning move `(0,2)` succeeds and mutates the
maps and saves, yet the reply carries `status = "ERROR"`: after the game
ends the caller's `game_id` is cleared, so the trailing
`**self.get_game_state(...)` splat overrides the `"OK"` status with the
`"Player not in a game"` error dict. -/
theorem make_move_error_reply_mutates :
    (make_move stC9 "a" 0 2 "t").reply.status = "ERROR" ∧
    (make_move stC9 "a" 0 2 "t").reply.message = "Player not in a game" ∧
    (make_move stC9 "a" 0 2 "t").saved = true ∧
    (make_move stC9 "a" 0 2 "t").st.games ≠ stC9.games := by
  decide


/-- C9 amended: when `make_move` replies with an error status, either it
failed a validation guard — the maps are untouched and nothing is saved —
or the move was legal and ended the game (win or draw): the caller's game
is `finished`, the state was mutated and saved, and the error text is the
post-game `"Player not in a game"` produced by splatting
`get_game_state` over the success reply. -/
theorem make_move_error_no_mutation (st : GameLogic) (pid : String)
    (row col : Int) (date : String)
    (herr : (make_move st pid row col date).reply.status = "ERROR") :
    ((make_move st pid row col date).st = st ∧
     (make_move st pid row col date).saved = false) ∨
    ((make_move st pid row col date).saved = true ∧
     (make_move st pid row col date).reply.message = "Player not in a game" ∧
     ∃ gid P game', alookup st.players pid = some P ∧ P.game_id = some gid ∧
       alookup (make_move st pid row col date).st.games gid = some game' ∧
       game'.status = "finished") := by
  rcases hP : alookup st.players pid with _ | P
  · exact Or.inl (by simp [make_move, hP])
  rcases hgid : P.game_id with _ | gid
  · exact Or.inl (by simp [make_move, hP, hgid])
  by_cases hne0 : gid = ""
  · exact Or.inl (by simp [make_move, hP, hgid, hne0])
  rcases hg : alookup st.games gid with _ | game
  · exact Or.inl (by simp [make_move, hP, hgid, hne0, hg])
  by_cases hs : game.status = "playing"
  swap
  · exact Or.inl (by simp [make_move, hP, hgid, hne0, hg, hs])
  by_cases ht : game.players[game.current_turn_idx]? = some pid
  swap
  · exact Or.inl (by simp [make_move, hP, hgid, hne0, hg, hs, ht])
  by_cases h1 : 0 ≤ row
  swap
  · exact Or.inl (by simp [make_move, hP, hgid, hne0, hg, hs, ht, h1])
  by_cases h2 : row < 3
  swap
  · exact Or.inl (by simp [make_move, hP, hgid, hne0, hg, hs, ht, h2])
  by_cases h3 : 0 ≤ col
  swap
  · exact Or.inl (by simp [make_move, hP, hgid, hne0, hg, hs, ht, h3])
  by_cases h4 : col < 3
  swap
  · exact Or.inl (by simp [make_move, hP, hgid, hne0, hg, hs, ht, h4])
  by_cases h5 : getCell game.board row.toNat col.toNat = some "."
  swap
  · exact Or.inl (by simp [make_move, hP, hgid, hne0, hg, hs, ht, h5])
  have hmem : pid ∈ game.players ++ game.spectators :=
    List.mem_append_left _ (getElem?_mem_list _ _ _ ht)
  have hnf : ({ game with board := setCell game.board row.toNat col.toNat P.symbol } : Game).status ≠ "finished" := by
    simp [hs]
  rcases hw : check_winner (setCell game.board row.toNat col.toNat P.symbol) with _ | w
  · by_cases hf : is_board_full (setCell game.board row.toNat col.toNat P.symbol) = true
    · -- draw: state mutated, game finished, error-status reply
      have hred : make_move st pid row col date =
          ⟨end_game_and_record_history { st with games := ainsert st.games gid ({ game with board := setCell game.board row.toNat col.toNat P.symbol }) } gid (some "draw") "draw" date,
           mergeReply "Move made" (get_game_state (end_game_and_record_history { st with games := ainsert st.games gid ({ game with board := setCell game.board row.toNat col.toNat P.symbol }) } gid (some "draw") "draw" date) pid),
           true⟩ := by
        simp [make_move, hP, hgid, hne0, hg, hs, ht, h1, h2, h3, h4, h5, hw, hf]
      have hg1 : alookup ({ st with games := ainsert st.games gid ({ game with board := setCell game.board row.toNat col.toNat P.symbol }) } : GameLogic).games gid = some ({ game with board := setCell game.board row.toNat col.toNat P.symbol }) :=
        alookup_ainsert_self _ _ _
      rw [end_game_unfold _ _ _ _ _ _ hg1 hnf] at hred
      right
      refine ⟨?_, ?_, gid, P,
        { game with board := setCell game.board row.toNat col.toNat P.symbol, status := "finished", winner := some "draw" },
        rfl, hgid, ?_, rfl⟩
      · rw [hred]
      · rw [hred]
        simp [mergeReply, get_game_state, recordAll_players_lookup, hmem, hP,
          clearPS]
      · rw [hred]
        exact alookup_ainsert_self _ _ _
    · -- neither win nor full: the reply is OK, contradicting herr
      exfalso
      have hred : make_move st pid row col date =
          ⟨{ st with games := ainsert (ainsert st.games gid ({ game with board := setCell game.board row.toNat col.toNat P.symbol })) gid ({ game with board := setCell game.board row.toNat col.toNat P.symbol, current_turn_idx := 1 - game.current_turn_idx }) },
           mergeReply "Move made" (get_game_state { st with games := ainsert (ainsert st.games gid ({ game with board := setCell game.board row.toNat col.toNat P.symbol })) gid ({ game with board := setCell game.board row.toNat col.toNat P.symbol, current_turn_idx := 1 - game.current_turn_idx }) } pid),
           true⟩ := by
        simp [make_move, hP, hgid, hne0, hg, hs, ht, h1, h2, h3, h4, h5, hw, hf]
      rw [hred] at herr
      simp [mergeReply, get_game_state, hP, hgid, hne0,
        alookup_ainsert_self] at herr
  · -- win: state mutated, game finished, error-status reply
    have hred : make_move st pid row col date =
        ⟨end_game_and_record_history { st with games := ainsert st.games gid ({ game with board := setCell game.board row.toNat col.toNat P.symbol }) } gid (find_player_with_symbol game.symbols w) "win" date,
         mergeReply "Move made" (get_game_state (end_game_and_record_history { st with games := ainsert st.games gid ({ game with board := setCell game.board row.toNat col.toNat P.symbol }) } gid (find_player_with_symbol game.symbols w) "win" date) pid),
         true⟩ := by
      simp [make_move, hP, hgid, hne0, hg, hs, ht, h1, h2, h3, h4, h5, hw]
    have hg1 : alookup ({ st with games := ainsert st.games gid ({ game with board := setCell game.board row.toNat col.toNat P.symbol }) } : GameLogic).games gid = some ({ game with board := setCell game.board row.toNat col.toNat P.symbol }) :=
      alookup_ainsert_self _ _ _
    rw [end_game_unfold _ _ _ _ _ _ hg1 hnf] at hred
    right
    refine ⟨?_, ?_, gid, P,
      { game with board := setCell game.board row.toNat col.toNat P.symbol, status := "finished", winner := find_player_with_symbol game.symbols w },
      rfl, hgid, ?_, rfl⟩
    · rw [hred]
    · rw [hred]
      simp [mergeReply, get_game_state, recordAll_players_lookup, hmem, hP,
        clearPS]
    · rw [hred]
      exact alookup_ainsert_self _ _ _

/-- C9 amended witness: the guard branch on an out-of-turn move of the C10
state (left disjunct evaluated there by the theorem). -/
theorem make_move_error_no_mutation_witness :
    ((make_move stC10 "x" 0 0 "t").st = stC10 ∧
     (make_move stC10 "x" 0 0 "t").saved = false) ∨
    ((make_move stC10 "x" 0 0 "t").saved = true ∧
     (make_move stC10 "x" 0 0 "t").reply.message = "Player not in a game" ∧
     ∃ gid P game', alookup stC10.players "x" = some P ∧
       P.game_id = some gid ∧
       alookup (make_move stC10 "x" 0 0 "t").st.games gid = some game' ∧
       game'.status = "finished") :=
  make_move_error_no_mutation stC10 "x" 0 0 "t" (by decide)

/-- C8 counterexample: a `create_game` whose generated id collides with the
id of a live game replaces that game, so the turn index observed at that id
changes (here from 1 to 0) through a non-move operation. -/
theorem create_collision_resets_turn :
    (alookup stC10.games "abcd").map Game.current_turn_idx = some 1 ∧
    (applyOp stC10 (Op.create "p" "abcd")).reply.status = "OK" ∧
    (alookup (applyOp stC10 (Op.create "p" "abcd")).st.games "abcd").map
      Game.current_turn_idx = some 0 := by
  decide

/-- C8 amended: the turn index recorded at a game id changes only through a
legal `make_move` that neither wins nor fills the board (flipping the index
to `1 - idx` with an OK reply), or through a `create_game` whose generated
id collides with that id and replaces the game by a fresh one at turn
index 0.  Every failed call and every other operation leaves it unchanged. -/
theorem turn_index_only_moves (st : GameLogic) (op : Op) (gid : String)
    (game game' : Game)
    (h : alookup st.games gid = some game)
    (h' : alookup (applyOp st op).st.games gid = some game')
    (hne : game'.current_turn_idx ≠ game.current_turn_idx) :
    (∃ pid row col date, op = Op.move pid row col date ∧
      (applyOp st op).reply.status = "OK" ∧
      check_winner game'.board = none ∧
      is_board_full game'.board = false ∧
      game'.current_turn_idx = 1 - game.current_turn_idx) ∨
    (∃ pid, op = Op.create pid gid ∧ game'.current_turn_idx = 0) := by
  cases op with
  | register pid now =>
      exfalso
      have hgames : (applyOp st (Op.register pid now)).st.games = st.games := by
        simp only [applyOp]
        unfold register_player
        by_cases hp : pid = ""
        · simp [hp]
        · rw [if_neg hp]
          rcases alookup st.players pid with _ | P <;> rfl
      rw [hgames, h] at h'
      cases h'
      exact hne rfl
  | create pid fresh =>
      rcases hA : alookup st.players pid with _ | P
      · exfalso
        have hgames : (applyOp st (Op.create pid fresh)).st.games = st.games := by
          simp [applyOp, create_game, hA]
        rw [hgames, h] at h'
        cases h'
        exact hne rfl
      by_cases hT : truthy P.game_id
      · exfalso
        have hgames : (applyOp st (Op.create pid fresh)).st.games = st.games := by
          simp [applyOp, create_game, hA, hT]
        rw [hgames, h] at h'
        cases h'
        exact hne rfl
      have hgames : (applyOp st (Op.create pid fresh)).st.games =
          ainsert st.games fresh
            { board := emptyBoard, players := [pid], spectators := [],
              current_turn_idx := 0, status := "waiting", winner := none,
              symbols := [(pid, "X")] } := by
        simp [applyOp, create_game, hA, hT]
      by_cases hfg : fresh = gid
      · subst hfg
        rw [hgames, alookup_ainsert_self] at h'
        cases h'
        exact Or.inr ⟨pid, rfl, rfl⟩
      · exfalso
        rw [hgames, alookup_ainsert_ne _ _ _ _ (fun hh => hfg hh.symm), h] at h'
        cases h'
        exact hne rfl
  | join pid gid2 =>
      exfalso
      rcases hA : alookup st.players pid with _ | P
      · have hgames : (applyOp st (Op.join pid gid2)).st.games = st.games := by
          simp [applyOp, join_game, hA]
        rw [hgames, h] at h'
        cases h'
        exact hne rfl
      by_cases hT : truthy P.game_id
      · have hgames : (applyOp st (Op.join pid gid2)).st.games = st.games := by
          simp [applyOp, join_game, hA, hT]
        rw [hgames, h] at h'
        cases h'
        exact hne rfl
      by_cases hge : gid2 = ""
      · have hgames : (applyOp st (Op.join pid gid2)).st.games = st.games := by
          simp [applyOp, join_game, hA, hT, hge]
        rw [hgames, h] at h'
        cases h'
        exact hne rfl
      rcases hg2 : alookup st.games gid2 with _ | game2
      · have hgames : (applyOp st (Op.join pid gid2)).st.games = st.games := by
          simp [applyOp, join_game, hA, hT, hge, hg2]
        rw [hgames, h] at h'
        cases h'
        exact hne rfl
      by_cases hst2 : game2.status = "waiting"
      swap
      · have hgames : (applyOp st (Op.join pid gid2)).st.games = st.games := by
          simp [applyOp, join_game, hA, hT, hge, hg2, hst2]
        rw [hgames, h] at h'
        cases h'
        exact hne rfl
      by_cases hlen : game2.players.length ≥ 2
      · have hgames : (applyOp st (Op.join pid gid2)).st.games = st.games := by
          simp [applyOp, join_game, hA, hT, hge, hg2, hst2, hlen]
        rw [hgames, h] at h'
        cases h'
        exact hne rfl
      have hgames : (applyOp st (Op.join pid gid2)).st.games =
          ainsert st.games gid2
            ({ game2 with players := game2.players ++ [pid],
                          status := "playing",
                          symbols := ainsert game2.symbols pid "O" }) := by
        simp [applyOp, join_game, hA, hT, hge, hg2, hst2, hlen]
      by_cases hgg : gid = gid2
      · subst hgg
        rw [hgames, alookup_ainsert_self] at h'
        rw [h] at hg2
        cases hg2
        cases h'
        exact hne rfl
      · rw [hgames, alookup_ainsert_ne _ _ _ _ hgg, h] at h'
        cases h'
        exact hne rfl
  | spectate pid gid2 =>
      exfalso
      rcases hA : alookup st.players pid with _ | P
      · have hgames : (applyOp st (Op.spectate pid gid2)).st.games = st.games := by
          simp [applyOp, spectate_game, hA]
        rw [hgames, h] at h'
        cases h'
        exact hne rfl
      by_cases hT : truthy P.game_id
      · have hgames : (applyOp st (Op.spectate pid gid2)).st.games = st.games := by
          simp [applyOp, spectate_game, hA, hT]
        rw [hgames, h] at h'
        cases h'
        exact hne rfl
      by_cases hge : gid2 = ""
      · have hgames : (applyOp st (Op.spectate pid gid2)).st.games = st.games := by
          simp [applyOp, spectate_game, hA, hT, hge]
        rw [hgames, h] at h'
        cases h'
        exact hne rfl
      rcases hg2 : alookup st.games gid2 with _ | game2
      · have hgames : (applyOp st (Op.spectate pid gid2)).st.games = st.games := by
          simp [applyOp, spectate_game, hA, hT, hge, hg2]
        rw [hgames, h] at h'
        cases h'
        exact hne rfl
      have hgames : (applyOp st (Op.spectate pid gid2)).st.games =
          ainsert st.games gid2
            ({ game2 with spectators := game2.spectators ++ [pid] }) := by
        simp [applyOp, spectate_game, hA, hT, hge, hg2]
      by_cases hgg : gid = gid2
      · subst hgg
        rw [hgames, alookup_ainsert_self] at h'
        rw [h] at hg2
        cases hg2
        cases h'
        exact hne rfl
      · rw [hgames, alookup_ainsert_ne _ _ _ _ hgg, h] at h'
        cases h'
        exact hne rfl
  | touch pid now =>
      exfalso
      have hgames : (applyOp st (Op.touch pid now)).st.games = st.games := by
        simp only [applyOp]
        unfold update_player_last_seen
        rcases alookup st.players pid with _ | P
        · rfl
        · by_cases hc : P.connection_status = "offline" <;> simp [hc]
      rw [hgames, h] at h'
      cases h'
      exact hne rfl
  | getState pid =>
      exfalso
      rw [show (applyOp st (Op.getState pid)).st = st from rfl, h] at h'
      cases h'
      exact hne rfl
  | listGames =>
      exfalso
      rw [show (applyOp st Op.listGames).st = st from rfl, h] at h'
      cases h'
      exact hne rfl
  | history pid =>
      exfalso
      rw [show (applyOp st (Op.history pid)).st = st from rfl, h] at h'
      cases h'
      exact hne rfl
  | leave pid date =>
      exfalso
      rcases hA : alookup st.players pid with _ | P
      · have hgames : (applyOp st (Op.leave pid date)).st.games = st.games := by
          simp [applyOp, leave_game, hA]
        rw [hgames, h] at h'
        cases h'
        exact hne rfl
      rcases hgidP : P.game_id with _ | gid2
      · have hgames : (applyOp st (Op.leave pid date)).st.games = st.games := by
          simp [applyOp, leave_game, hA, hgidP, clear_leaver_games]
        rw [hgames, h] at h'
        cases h'
        exact hne rfl
      by_cases hne2 : gid2 = ""
      · have hgames : (applyOp st (Op.leave pid date)).st.games = st.games := by
          simp [applyOp, leave_game, hA, hgidP, hne2, clear_leaver_games]
        rw [hgames, h] at h'
        cases h'
        exact hne rfl
      rcases hg2 : alookup st.games gid2 with _ | game2
      · have hgames : (applyOp st (Op.leave pid date)).st.games = st.games := by
          simp [applyOp, leave_game, hA, hgidP, hne2, hg2, clear_leaver_games]
        rw [hgames, h] at h'
        cases h'
        exact hne rfl
      by_cases hcond : pid ∈ game2.players ∧ game2.status ≠ "finished"
      · by_cases hlen : game2.players.length > 1
        · rcases hfind : game2.players.find? (fun p => !decide (p = pid))
              with _ | other
          · have hgames : (applyOp st (Op.leave pid date)).st.games
                = st.games := by
              simp [applyOp, leave_game, hA, hgidP, hne2, hg2, hcond.1,
                hcond.2, hlen, hfind, clear_leaver_games]
            rw [hgames, h] at h'
            cases h'
            exact hne rfl
          · by_cases hoth : other = ""
            · have hgames : (applyOp st (Op.leave pid date)).st.games
                  = st.games := by
                simp [applyOp, leave_game, hA, hgidP, hne2, hg2, hcond.1,
                  hcond.2, hlen, hfind, hoth, clear_leaver_games]
              rw [hgames, h] at h'
              cases h'
              exact hne rfl
            · have hgames : (applyOp st (Op.leave pid date)).st.games =
                  ainsert st.games gid2
                    ({ game2 with status := "finished",
                                  winner := some other }) := by
                simp [applyOp, leave_game, hA, hgidP, hne2, hg2, hcond.1,
                  hcond.2, hlen, hfind, hoth, clear_leaver_games,
                  end_game_and_record_history]
              by_cases hgg : gid = gid2
              · subst hgg
                rw [hgames, alookup_ainsert_self] at h'
                rw [h] at hg2
                cases hg2
                cases h'
                exact hne rfl
              · rw [hgames, alookup_ainsert_ne _ _ _ _ hgg, h] at h'
                cases h'
                exact hne rfl
        · have hgames : (applyOp st (Op.leave pid date)).st.games =
              aerase st.games gid2 := by
            simp [applyOp, leave_game, hA, hgidP, hne2, hg2, hcond.1,
              hcond.2, hlen, clear_leaver_games]
          by_cases hgg : gid = gid2
          · subst hgg
            rw [hgames, alookup_aerase_self] at h'
            cases h'
          · rw [hgames, alookup_aerase_ne _ _ _ hgg, h] at h'
            cases h'
            exact hne rfl
      · by_cases hspec : pid ∈ game2.spectators
        · have hgames : (applyOp st (Op.leave pid date)).st.games =
              ainsert st.games gid2
                ({ game2 with
                    spectators := game2.spectators.erase pid }) := by
            simp [applyOp, leave_game, hA, hgidP, hne2, hg2, hcond, hspec,
              clear_leaver_games]
          by_cases hgg : gid = gid2
          · subst hgg
            rw [hgames, alookup_ainsert_self] at h'
            rw [h] at hg2
            cases hg2
            cases h'
            exact hne rfl
          · rw [hgames, alookup_ainsert_ne _ _ _ _ hgg, h] at h'
            cases h'
            exact hne rfl
        · have hgames : (applyOp st (Op.leave pid date)).st.games
              = st.games := by
            simp [applyOp, leave_game, hA, hgidP, hne2, hg2, hcond, hspec,
              clear_leaver_games]
          rw [hgames, h] at h'
          cases h'
          exact hne rfl
  | move pid row col date =>
      rcases hA : alookup st.players pid with _ | P
      · exfalso
        have hgames : (applyOp st (Op.move pid row col date)).st.games
            = st.games := by
          simp [applyOp, make_move, hA]
        rw [hgames, h] at h'
        cases h'
        exact hne rfl
      rcases hgidP : P.game_id with _ | gid2
      · exfalso
        have hgames : (applyOp st (Op.move pid row col date)).st.games
            = st.games := by
          simp [applyOp, make_move, hA, hgidP]
        rw [hgames, h] at h'
        cases h'
        exact hne rfl
      by_cases hne2 : gid2 = ""
      · exfalso
        have hgames : (applyOp st (Op.move pid row col date)).st.games
            = st.games := by
          simp [applyOp, make_move, hA, hgidP, hne2]
        rw [hgames, h] at h'
        cases h'
        exact hne rfl
      rcases hg2 : alookup st.games gid2 with _ | game2
      · exfalso
        have hgames : (applyOp st (Op.move pid row col date)).st.games
            = st.games := by
          simp [applyOp, make_move, hA, hgidP, hne2, hg2]
        rw [hgames, h] at h'
        cases h'
        exact hne rfl
      by_cases hst2 : game2.status = "playing"
      swap
      · exfalso
        have hgames : (applyOp st (Op.move pid row col date)).st.games
            = st.games := by
          simp [applyOp, make_move, hA, hgidP, hne2, hg2, hst2]
        rw [hgames, h] at h'
        cases h'
        exact hne rfl
      by_cases ht2 : game2.players[game2.current_turn_idx]? = some pid
      swap
      · exfalso
        have hgames : (applyOp st (Op.move pid row col date)).st.games
            = st.games := by
          simp [applyOp, make_move, hA, hgidP, hne2, hg2, hst2, ht2]
        rw [hgames, h] at h'
        cases h'
        exact hne rfl
      by_cases hval : 0 ≤ row ∧ row < 3 ∧ 0 ≤ col ∧ col < 3 ∧
          getCell game2.board row.toNat col.toNat = some "."
      swap
      · exfalso
        have hgames : (applyOp st (Op.move pid row col date)).st.games
            = st.games := by
          simp only [applyOp, make_move, hA, hgidP, hg2]
          rw [if_neg hne2, if_neg (not_not_intro hst2),
            if_neg (not_not_intro ht2), if_pos hval]
        rw [hgames, h] at h'
        cases h'
        exact hne rfl
      obtain ⟨h1, h2, h3, h4, h5⟩ := hval
      rcases hw : check_winner (setCell game2.board row.toNat col.toNat
          P.symbol) with _ | w
      · by_cases hf : is_board_full (setCell game2.board row.toNat col.toNat
            P.symbol) = true
        · -- draw: status flips but the turn index is preserved
          exfalso
          have hgames : (applyOp st (Op.move pid row col date)).st.games =
              ainsert (ainsert st.games gid2
                ({ game2 with board := setCell game2.board row.toNat col.toNat P.symbol }))
                gid2
                ({ game2 with board := setCell game2.board row.toNat col.toNat P.symbol,
                              status := "finished", winner := some "draw" }) := by
            simp [applyOp, make_move, hA, hgidP, hne2, hg2, hst2, ht2, h1,
              h2, h3, h4, h5, hw, hf, end_game_and_record_history,
              alookup_ainsert_self]
          by_cases hgg : gid = gid2
          · subst hgg
            rw [hgames, alookup_ainsert_self] at h'
            rw [h] at hg2
            cases hg2
            cases h'
            exact hne rfl
          · rw [hgames, alookup_ainsert_ne _ _ _ _ hgg,
              alookup_ainsert_ne _ _ _ _ hgg, h] at h'
            cases h'
            exact hne rfl
        · -- the flip branch: the only legitimate turn-index change
          have hgames : (applyOp st (Op.move pid row col date)).st.games =
              ainsert (ainsert st.games gid2
                ({ game2 with board := setCell game2.board row.toNat col.toNat P.symbol }))
                gid2
                ({ game2 with board := setCell game2.board row.toNat col.toNat P.symbol,
                              current_turn_idx := 1 - game2.current_turn_idx }) := by
            simp [applyOp, make_move, hA, hgidP, hne2, hg2, hst2, ht2, h1,
              h2, h3, h4, h5, hw, hf]
          by_cases hgg : gid = gid2
          · subst hgg
            rw [hgames, alookup_ainsert_self] at h'
            rw [h] at hg2
            cases hg2
            cases h'
            left
            have hred : applyOp st (Op.move pid row col date) =
                ⟨{ st with games := ainsert (ainsert st.games gid ({ game with board := setCell game.board row.toNat col.toNat P.symbol })) gid ({ game with board := setCell game.board row.toNat col.toNat P.symbol, current_turn_idx := 1 - game.current_turn_idx }) },
                 mergeReply "Move made" (get_game_state { st with games := ainsert (ainsert st.games gid ({ game with board := setCell game.board row.toNat col.toNat P.symbol })) gid ({ game with board := setCell game.board row.toNat col.toNat P.symbol, current_turn_idx := 1 - game.current_turn_idx }) } pid),
                 true⟩ := by
              simp [applyOp, make_move, hA, hgidP, hne2, h, hst2, ht2, h1,
                h2, h3, h4, h5, hw, hf]
            have hrep : (applyOp st (Op.move pid row col date)).reply.status
                = "OK" := by
              rw [hred]
              simp [mergeReply, get_game_state, hA, hgidP, hne2,
                alookup_ainsert_self]
            have hf' : is_board_full (setCell game.board row.toNat col.toNat
                P.symbol) = false := by simpa using hf
            exact ⟨pid, row, col, date, rfl, hrep, hw, hf', rfl⟩
          · exfalso
            rw [hgames, alookup_ainsert_ne _ _ _ _ hgg,
              alookup_ainsert_ne _ _ _ _ hgg, h] at h'
            cases h'
            exact hne rfl
      · -- win: status flips but the turn index is preserved
        exfalso
        have hgames : (applyOp st (Op.move pid row col date)).st.games =
            ainsert (ainsert st.games gid2
              ({ game2 with board := setCell game2.board row.toNat col.toNat P.symbol }))
              gid2
              ({ game2 with board := setCell game2.board row.toNat col.toNat P.symbol,
                            status := "finished",
                            winner := find_player_with_symbol game2.symbols w }) := by
          simp [applyOp, make_move, hA, hgidP, hne2, hg2, hst2, ht2, h1, h2,
            h3, h4, h5, hw, end_game_and_record_history,
            alookup_ainsert_self]
        by_cases hgg : gid = gid2
        · subst hgg
          rw [hgames, alookup_ainsert_self] at h'
          rw [h] at hg2
          cases hg2
          cases h'
          exact hne rfl
        · rw [hgames, alookup_ainsert_ne _ _ _ _ hgg,
            alookup_ainsert_ne _ _ _ _ hgg, h] at h'
          cases h'
          exact hne rfl

/-- The C3 state after `"a"` legally plays `(0,0)`: the mark is written and
the turn index flips to 1. -/
def gameC3after : Game :=
  { board := [[some "X", some ".", some "."],
              [some ".", some ".", some "."],
              [some ".", some ".", some "."]],
    players := ["a", "b"], spectators := ["s"], current_turn_idx := 1,
    status := "playing", winner := none,
    symbols := [("a", "X"), ("b", "O")] }

/-- C8 amended witness: a legal non-winning, non-filling move on the C3
state flips the turn index, and the theorem attributes it to that move. -/
theorem turn_index_only_moves_witness :
    (∃ pid row col date, Op.move "a" 0 0 "t" = Op.move pid row col date ∧
      (applyOp stC3 (Op.move "a" 0 0 "t")).reply.status = "OK" ∧
      check_winner gameC3after.board = none ∧
      is_board_full gameC3after.board = false ∧
      gameC3after.current_turn_idx = 1 - gameC3.current_turn_idx) ∨
    (∃ pid, Op.move "a" 0 0 "t" = Op.create pid "g1" ∧
      gameC3after.current_turn_idx = 0) :=
  turn_index_only_moves stC3 (Op.move "a" 0 0 "t") "g1" gameC3 gameC3after
    (by decide) (by decide) (by decide)
